import Mathlib

/-!
Verification of the `trex_common` JWT helper (`src/jwt_helper.rs`).

The Rust source is a thin facade over the `jsonwebtoken` and `rsa` crates:

* `JWTHelper` holds `pvt_key_secret : Option<String>`, `expiry_secs : usize`,
  `leeway : u64`, `encrypted_pvt_key : Option<String>`, `pub_key : Option<RsaPublicKey>`.
* `generate_token` builds an RS256 header, a `Claims { exp, iat, sub }` record
  (note: `exp` and `iat` each call `Utc::now()` separately), unwraps the
  encrypted key and the passphrase with `.expect(...)` (a panic on `None`),
  decrypts the key and signs.
* `validate_token` unwraps `pub_key` with `.expect(...)`, then delegates to
  `jsonwebtoken::decode` with `Validation::new(RS256)`, `validate_exp = true`
  and `leeway = self.leeway`; on success it returns `claims.sub`.

The embedding below models the wall clock as an explicit sequence of readings
(`clock : Nat → Nat`; the k-th call of `Utc::now()` during one operation
returns `clock k`), RSA key pairs as `Nat` identifiers, and the signature
scheme ideally: the signature over a message is an injective encoding of the
signing key id together with the message, and verification is equality with
the signature recomputed from the verifying key id.  The JWT payload segment
is modelled at the bit level: claims are serialized through an executable
injective encoder `encodeObj : JsonObj → List Bool` with a matching decoder,
so that bit-flipping tamper properties are statable.  Error kinds follow the
spec's taxonomy (the Rust code erases kinds into `anyhow::Error`); a panic
(`.expect`) is modelled as a distinct `Outcome.panic` carrying the message.
-/

/-- Error taxonomy of the spec (§7).  The Rust code returns `anyhow::Error`,
so the kinds classify the failure conditions rather than Rust types. -/
inductive JwtError
  | ConfigError
  | KeyMaterialError
  | SigningError
  | MalformedTokenError
  | AlgorithmMismatchError
  | SignatureError
  | ExpiredError
deriving DecidableEq

/-- Result of an operation: success, a structured error, or a process abort
(the Rust `.expect(msg)` panic, which is not a `Result` at all). -/
inductive Outcome (α : Type)
  | ok (a : α)
  | error (e : JwtError)
  | panic (msg : String)
deriving DecidableEq

/-- JWT header algorithms relevant to the claims (spec §3 invariants, S4). -/
inductive Alg
  | RS256
  | RS384
  | HS256
  | noAlg
deriving DecidableEq

/-- An RSA public key, abstracted to the identity of its key pair. -/
structure RsaPublicKey where
  keyId : Nat
deriving DecidableEq

/-- A PEM-armored passphrase-encrypted private key: the identity of its key
pair plus the passphrase it was encrypted with.  Decryption succeeds exactly
when the supplied passphrase matches. -/
structure EncryptedPem where
  keyId : Nat
  passphrase : String
deriving DecidableEq

/-- `JWTHelper` struct (`src/jwt_helper.rs` lines 16-24). -/
structure JWTHelper where
  pvt_key_secret : Option String
  expiry_secs : Nat
  leeway : Nat
  encrypted_pvt_key : Option EncryptedPem
  pub_key : Option RsaPublicKey

/-- Panic message `SECRET_ABSENT` (line 10). -/
def SECRET_ABSENT : String := "`pvt_key_secret` is required for generating token."

/-- Panic message `PVT_KEY_ABSENT` (line 11). -/
def PVT_KEY_ABSENT : String := "`encrypted_pvt_key` is required for generating token."

/-- Panic message `PUB_KEY_ABSENT` (line 12). -/
def PUB_KEY_ABSENT : String := "`pub_key` is required for verifying token."

/-- `Claims` struct (lines 67-72): `exp : usize`, `iat : usize`, `sub : String`. -/
structure Claims where
  exp : Nat
  iat : Nat
  sub : String
deriving DecidableEq

/-- A JSON value as far as the claims payload is concerned. -/
inductive JsonVal
  | num (n : Int)
  | str (s : String)
deriving DecidableEq

/-- A JSON object: a sequence of named members. -/
abbrev JsonObj : Type := List (String × JsonVal)

/-! ### Executable bit-level serialization of JSON payloads

Self-delimiting encodings with executable decoders; every `decode∘encode`
round trip is proved below.  Naturals are encoded in unary (`n` ones then a
zero), which keeps the decoders structurally recursive. -/

/-- Unary encoding of a natural number. -/
def encodeNat (n : Nat) : List Bool :=
  List.replicate n true ++ [false]

/-- Decoder for `encodeNat`; returns the value and the remaining bits. -/
def decodeNat : List Bool → Option (Nat × List Bool)
  | [] => none
  | false :: r => some (0, r)
  | true :: r =>
    match decodeNat r with
    | some (n, r1) => some (n + 1, r1)
    | none => none

/-- Sign-bit-then-magnitude encoding of an integer. -/
def encodeInt : Int → List Bool
  | Int.ofNat n => false :: encodeNat n
  | Int.negSucc n => true :: encodeNat n

/-- Decoder for `encodeInt`. -/
def decodeInt : List Bool → Option (Int × List Bool)
  | [] => none
  | false :: r =>
    match decodeNat r with
    | some (n, r1) => some (Int.ofNat n, r1)
    | none => none
  | true :: r =>
    match decodeNat r with
    | some (n, r1) => some (Int.negSucc n, r1)
    | none => none

/-- A character is encoded as its code point. -/
def encodeChar (c : Char) : List Bool :=
  encodeNat c.toNat

/-- Decode `k` characters. -/
def decodeChars : Nat → List Bool → Option (List Char × List Bool)
  | 0, r => some ([], r)
  | k + 1, r =>
    match decodeNat r with
    | some (c, r1) =>
      match decodeChars k r1 with
      | some (cs, r2) => some (Char.ofNat c :: cs, r2)
      | none => none
    | none => none

/-- Length-prefixed encoding of a string. -/
def encodeStr (s : String) : List Bool :=
  encodeNat s.data.length ++ (s.data.map encodeChar).flatten

/-- Decoder for `encodeStr`. -/
def decodeStr (r : List Bool) : Option (String × List Bool) :=
  match decodeNat r with
  | some (k, r1) =>
    match decodeChars k r1 with
    | some (cs, r2) => some (String.mk cs, r2)
    | none => none
  | none => none

/-- Tagged encoding of a JSON value. -/
def encodeVal : JsonVal → List Bool
  | JsonVal.num n => false :: encodeInt n
  | JsonVal.str s => true :: encodeStr s

/-- Decoder for `encodeVal`. -/
def decodeVal : List Bool → Option (JsonVal × List Bool)
  | [] => none
  | false :: r =>
    match decodeInt r with
    | some (n, r1) => some (JsonVal.num n, r1)
    | none => none
  | true :: r =>
    match decodeStr r with
    | some (s, r1) => some (JsonVal.str s, r1)
    | none => none

/-- Encoding of one object member. -/
def encodeEntry (e : String × JsonVal) : List Bool :=
  encodeStr e.1 ++ encodeVal e.2

/-- Decoder for `encodeEntry`. -/
def decodeEntry (r : List Bool) : Option ((String × JsonVal) × List Bool) :=
  match decodeStr r with
  | some (k, r1) =>
    match decodeVal r1 with
    | some (v, r2) => some ((k, v), r2)
    | none => none
  | none => none

/-- Decode `k` object members. -/
def decodeEntries : Nat → List Bool → Option (JsonObj × List Bool)
  | 0, r => some ([], r)
  | k + 1, r =>
    match decodeEntry r with
    | some (e, r1) =>
      match decodeEntries k r1 with
      | some (o, r2) => some (e :: o, r2)
      | none => none
    | none => none

/-- Length-prefixed encoding of a JSON object: the serialized payload segment. -/
def encodeObj (o : JsonObj) : List Bool :=
  encodeNat o.length ++ (o.map encodeEntry).flatten

/-- Parse a whole payload segment as a JSON object (no trailing bits). -/
def decodeObjFull (l : List Bool) : Option JsonObj :=
  match decodeNat l with
  | some (k, r) =>
    match decodeEntries k r with
    | some (o, []) => some o
    | _ => none
  | none => none

/-! ### Round-trip lemmas for the serializers -/

theorem decodeNat_encodeNat (n : Nat) (r : List Bool) :
    decodeNat (encodeNat n ++ r) = some (n, r) := by
  induction n with
  | zero => rfl
  | succ k ih =>
    have h : encodeNat (k + 1) ++ r = true :: (encodeNat k ++ r) := by
      simp [encodeNat, List.replicate_succ]
    rw [h]
    simp [decodeNat, ih]

theorem decodeInt_encodeInt (n : Int) (r : List Bool) :
    decodeInt (encodeInt n ++ r) = some (n, r) := by
  cases n with
  | ofNat m => simp [encodeInt, decodeInt, decodeNat_encodeNat]
  | negSucc m => simp [encodeInt, decodeInt, decodeNat_encodeNat]

theorem decodeChars_encode (l : List Char) (r : List Bool) :
    decodeChars l.length ((l.map encodeChar).flatten ++ r) = some (l, r) := by
  induction l with
  | nil => rfl
  | cons c cs ih =>
    simp only [List.map_cons, List.flatten_cons, List.length_cons, List.append_assoc]
    simp [decodeChars, encodeChar, decodeNat_encodeNat, ih, Char.ofNat_toNat]

theorem decodeStr_encodeStr (s : String) (r : List Bool) :
    decodeStr (encodeStr s ++ r) = some (s, r) := by
  cases s with
  | mk data =>
    simp [encodeStr, decodeStr, List.append_assoc, decodeNat_encodeNat, decodeChars_encode]

theorem decodeVal_encodeVal (v : JsonVal) (r : List Bool) :
    decodeVal (encodeVal v ++ r) = some (v, r) := by
  cases v with
  | num n => simp [encodeVal, decodeVal, decodeInt_encodeInt]
  | str s => simp [encodeVal, decodeVal, decodeStr_encodeStr]

theorem decodeEntry_encodeEntry (e : String × JsonVal) (r : List Bool) :
    decodeEntry (encodeEntry e ++ r) = some (e, r) := by
  cases e with
  | mk k v =>
    simp [encodeEntry, decodeEntry, List.append_assoc, decodeStr_encodeStr, decodeVal_encodeVal]

theorem decodeEntries_encode (o : JsonObj) (r : List Bool) :
    decodeEntries o.length ((o.map encodeEntry).flatten ++ r) = some (o, r) := by
  induction o with
  | nil => rfl
  | cons e es ih =>
    simp only [List.map_cons, List.flatten_cons, List.length_cons, List.append_assoc]
    simp [decodeEntries, decodeEntry_encodeEntry, ih]

theorem decodeObjFull_encodeObj (o : JsonObj) :
    decodeObjFull (encodeObj o) = some o := by
  have h : encodeObj o = encodeNat o.length ++ ((o.map encodeEntry).flatten ++ []) := by
    simp [encodeObj]
  rw [decodeObjFull, h, decodeNat_encodeNat]
  have h3 := decodeEntries_encode o []
  simp only [List.append_nil] at h3
  simp [h3]

/-! ### Idealised RS256 signature scheme and token wire model -/

/-- Idealised signature: an injective, executable encoding of the signing key
pair's identity together with the signed message.  Verification recomputes it
from the verifying key's identity and compares for equality, which captures
RSASSA-PKCS1-v1_5 soundness (a signature validates only under the matching
key and only over the exact signed bytes) without axiomatising cryptography. -/
def signBits (keyId : Nat) (msg : List Bool) : List Bool :=
  encodeNat keyId ++ msg

theorem signBits_inj {k k1 : Nat} {m m1 : List Bool}
    (h : signBits k m = signBits k1 m1) : k = k1 ∧ m = m1 := by
  have h2 : decodeNat (signBits k m) = some (k, m) := decodeNat_encodeNat k m
  have h3 : decodeNat (signBits k1 m1) = some (k1, m1) := decodeNat_encodeNat k1 m1
  rw [h, h3] at h2
  cases h2
  exact ⟨rfl, rfl⟩

/-- Serialized header: a fixed-length encoding of the `alg` member. -/
def encodeAlg : Alg → List Bool
  | Alg.RS256 => [false, false]
  | Alg.RS384 => [false, true]
  | Alg.HS256 => [true, false]
  | Alg.noAlg => [true, true]

/-- The JWS signing input: header segment followed by the payload segment
(`base64url(header) || . || base64url(payload)`). -/
def signedInput (a : Alg) (payload : List Bool) : List Bool :=
  encodeAlg a ++ payload

/-- A compact-serialization token after splitting into its three segments:
the decoded header algorithm, the raw payload segment and the raw signature
segment. -/
structure Token where
  alg : Alg
  payloadBits : List Bool
  sigBits : List Bool
deriving DecidableEq

/-! ### Serde model for `Claims` -/

/-- Serialization of `Claims` (serde emits fields in declaration order:
`exp`, `iat`, `sub`). -/
def Claims.toJson (c : Claims) : JsonObj :=
  [("exp", JsonVal.num (Int.ofNat c.exp)),
   ("iat", JsonVal.num (Int.ofNat c.iat)),
   ("sub", JsonVal.str c.sub)]

/-- All values bound to member name `k` in the object. -/
def lookupAll (o : JsonObj) (k : String) : List JsonVal :=
  (o.filter (fun e => e.1 == k)).map (fun e => e.2)

/-- Serde field access: the member must occur exactly once (serde rejects a
duplicated known field; a missing field is an error at the struct level). -/
def getUnique (o : JsonObj) (k : String) : Option JsonVal :=
  match lookupAll o k with
  | [v] => some v
  | _ => none

/-- A `usize` field: a non-negative JSON number. -/
def asUsize : JsonVal → Option Nat
  | JsonVal.num (Int.ofNat n) => some n
  | _ => none

/-- A `String` field. -/
def asStr : JsonVal → Option String
  | JsonVal.str s => some s
  | _ => none

/-- Serde deserialization of `Claims` from a payload object: all of `exp`,
`iat`, `sub` are required with the right types; unknown members are ignored. -/
def Claims.fromJson (o : JsonObj) : Option Claims :=
  match (getUnique o "exp").bind asUsize with
  | none => none
  | some e =>
    match (getUnique o "iat").bind asUsize with
    | none => none
    | some i =>
      match (getUnique o "sub").bind asStr with
      | none => none
      | some s => some ⟨e, i, s⟩

/-- Whether the payload object carries a member named `k` at all. -/
def hasClaim (o : JsonObj) (k : String) : Bool :=
  o.any (fun e => e.1 == k)

/-! ### The two operations of `JWTHelper` -/

/-- `JWTHelper::generate_token` (lines 29-45).  `clock k` is the value of the
k-th `Utc::now().timestamp()` call during this invocation: the source reads
the clock once for `exp` (line 33) and again, separately, for `iat`
(line 34).  Missing configuration is unwrapped with `.expect`, i.e. a panic
(lines 38-40, first the encrypted key, then the passphrase); a passphrase
that does not decrypt the PEM is a key-material failure. -/
def generate_token (h : JWTHelper) (clock : Nat → Nat) (subject : String) :
    Outcome Token :=
  let e := clock 0 + h.expiry_secs
  let i := clock 1
  let claims : Claims := ⟨e, i, subject⟩
  match h.encrypted_pvt_key with
  | none => Outcome.panic PVT_KEY_ABSENT
  | some pem =>
    match h.pvt_key_secret with
    | none => Outcome.panic SECRET_ABSENT
    | some secret =>
      if secret = pem.passphrase then
        Outcome.ok
          ⟨Alg.RS256, encodeObj claims.toJson,
           signBits pem.keyId (signedInput Alg.RS256 (encodeObj claims.toJson))⟩
      else Outcome.error JwtError.KeyMaterialError

/-- `JWTHelper::validate_token` (lines 47-64), with the pipeline of
`jsonwebtoken::decode` under `Validation::new(RS256)`, `validate_exp = true`,
`leeway = h.leeway`: unwrap the public key (`.expect`, line 56 — a panic when
absent), check the header algorithm, verify the signature over the signing
input, deserialize the payload into `Claims`, enforce
`now ≤ exp + leeway`, and return `claims.sub`. -/
def validate_token (h : JWTHelper) (now : Nat) (tok : Token) : Outcome String :=
  match h.pub_key with
  | none => Outcome.panic PUB_KEY_ABSENT
  | some pk =>
    if tok.alg ≠ Alg.RS256 then Outcome.error JwtError.AlgorithmMismatchError
    else if tok.sigBits ≠ signBits pk.keyId (signedInput tok.alg tok.payloadBits) then
      Outcome.error JwtError.SignatureError
    else
      match decodeObjFull tok.payloadBits with
      | none => Outcome.error JwtError.MalformedTokenError
      | some o =>
        match Claims.fromJson o with
        | none => Outcome.error JwtError.MalformedTokenError
        | some c =>
          if now ≤ c.exp + h.leeway then Outcome.ok c.sub
          else Outcome.error JwtError.ExpiredError

/-- A token whose payload is the serialized object `o` and whose signature is
genuine under the key pair `keyId`. -/
def signedObjToken (keyId : Nat) (o : JsonObj) : Token :=
  ⟨Alg.RS256, encodeObj o, signBits keyId (signedInput Alg.RS256 (encodeObj o))⟩

/-- A genuinely signed token carrying exactly the claims `c`. -/
def signedClaimsToken (keyId : Nat) (c : Claims) : Token :=
  signedObjToken keyId c.toJson

/-- Extract the success value of an outcome, if any. -/
def Outcome.getOk {α : Type} : Outcome α → Option α
  | Outcome.ok a => some a
  | _ => none

/-- The claims a token's payload segment deserializes to, if any. -/
def tokenClaims (tok : Token) : Option Claims :=
  (decodeObjFull tok.payloadBits).bind Claims.fromJson

/-! ### Evaluation lemmas for the pipeline -/

theorem fromJson_toJson (c : Claims) : Claims.fromJson c.toJson = some c := by
  simp [Claims.fromJson, Claims.toJson, getUnique, lookupAll, asUsize, asStr, List.filter]

theorem generate_token_ok (secret : String) (pem : EncryptedPem)
    (pk : Option RsaPublicKey) (E L : Nat) (clock : Nat → Nat) (s : String)
    (hsec : secret = pem.passphrase) :
    generate_token ⟨some secret, E, L, some pem, pk⟩ clock s
      = Outcome.ok (signedClaimsToken pem.keyId ⟨clock 0 + E, clock 1, s⟩) := by
  simp [generate_token, hsec, signedClaimsToken, signedObjToken]

theorem validate_signedObjToken (h : JWTHelper) (pk : RsaPublicKey) (o : JsonObj)
    (now : Nat) (hpub : h.pub_key = some pk) :
    validate_token h now (signedObjToken pk.keyId o)
      = match Claims.fromJson o with
        | none => Outcome.error JwtError.MalformedTokenError
        | some c =>
          if now ≤ c.exp + h.leeway then Outcome.ok c.sub
          else Outcome.error JwtError.ExpiredError := by
  rw [validate_token, hpub]
  simp [signedObjToken, decodeObjFull_encodeObj]

theorem validate_signedClaimsToken (h : JWTHelper) (pk : RsaPublicKey) (c : Claims)
    (now : Nat) (hpub : h.pub_key = some pk) :
    validate_token h now (signedClaimsToken pk.keyId c)
      = if now ≤ c.exp + h.leeway then Outcome.ok c.sub
        else Outcome.error JwtError.ExpiredError := by
  rw [signedClaimsToken, validate_signedObjToken h pk c.toJson now hpub, fromJson_toJson]

/-! ### Lemmas about claim lookup and tampering -/

theorem lookupAll_eq_nil (o : JsonObj) (k : String) (h1 : hasClaim o k = false) :
    lookupAll o k = [] := by
  unfold lookupAll
  have h2 : o.filter (fun e => e.1 == k) = [] :=
    List.filter_eq_nil_iff.mpr (fun a ha => List.any_eq_false.mp h1 a ha)
  rw [h2]
  rfl

theorem getUnique_eq_none (o : JsonObj) (k : String) (h1 : hasClaim o k = false) :
    getUnique o k = none := by
  rw [getUnique, lookupAll_eq_nil o k h1]

theorem fromJson_missing_exp (o : JsonObj) (h1 : hasClaim o "exp" = false) :
    Claims.fromJson o = none := by
  unfold Claims.fromJson
  rw [getUnique_eq_none o "exp" h1]
  rfl

theorem fromJson_missing_iat (o : JsonObj) (h1 : hasClaim o "iat" = false) :
    Claims.fromJson o = none := by
  unfold Claims.fromJson
  rw [getUnique_eq_none o "iat" h1]
  cases (getUnique o "exp").bind asUsize with
  | none => rfl
  | some e => rfl

theorem fromJson_missing_sub (o : JsonObj) (h1 : hasClaim o "sub" = false) :
    Claims.fromJson o = none := by
  unfold Claims.fromJson
  rw [getUnique_eq_none o "sub" h1]
  cases (getUnique o "exp").bind asUsize with
  | none => rfl
  | some e =>
    cases (getUnique o "iat").bind asUsize with
    | none => rfl
    | some i => rfl

theorem lookupAll_append_extras (o extras : JsonObj) (k : String)
    (hext : ∀ e ∈ extras, ¬ e.1 = k) :
    lookupAll (o ++ extras) k = lookupAll o k := by
  unfold lookupAll
  rw [List.filter_append]
  have h2 : extras.filter (fun e => e.1 == k) = [] :=
    List.filter_eq_nil_iff.mpr (fun a ha => by simpa using hext a ha)
  rw [h2, List.append_nil]

theorem fromJson_append_extras (o extras : JsonObj)
    (hext : ∀ e ∈ extras, ¬ e.1 = "exp" ∧ ¬ e.1 = "iat" ∧ ¬ e.1 = "sub") :
    Claims.fromJson (o ++ extras) = Claims.fromJson o := by
  unfold Claims.fromJson
  rw [getUnique, getUnique, getUnique, getUnique, getUnique, getUnique,
    lookupAll_append_extras o extras "exp" (fun e he => (hext e he).1),
    lookupAll_append_extras o extras "iat" (fun e he => (hext e he).2.1),
    lookupAll_append_extras o extras "sub" (fun e he => (hext e he).2.2)]

/-- Flip the bit at index `i` of a segment. -/
def flipBit (l : List Bool) (i : Nat) : List Bool :=
  l.set i (!(l.getD i false))

theorem flipBit_ne (l : List Bool) (i : Nat) (hi : i < l.length) :
    flipBit l i ≠ l := by
  intro he
  have h2 : (flipBit l i).getD i false = l.getD i false := by rw [he]
  have hset : i < (l.set i (!(l.getD i false))).length := by simpa using hi
  have h3 : (flipBit l i).getD i false = !(l.getD i false) := by
    rw [flipBit, List.getD_eq_getElem _ _ hset]
    simp
  rw [h2] at h3
  cases hb : l.getD i false <;> rw [hb] at h3 <;> simp at h3

theorem tokenClaims_signedObjToken (k : Nat) (o : JsonObj) :
    tokenClaims (signedObjToken k o) = Claims.fromJson o := by
  simp [tokenClaims, signedObjToken, decodeObjFull_encodeObj]

theorem tokenClaims_signedClaimsToken (k : Nat) (c : Claims) :
    tokenClaims (signedClaimsToken k c) = some c := by
  rw [signedClaimsToken, tokenClaims_signedObjToken, fromJson_toJson]

theorem payload_length_pos (k : Nat) (c : Claims) :
    0 < (signedClaimsToken k c).payloadBits.length := by
  simp [signedClaimsToken, signedObjToken, encodeObj, encodeNat]

theorem sig_length_pos (k : Nat) (c : Claims) :
    0 < (signedClaimsToken k c).sigBits.length := by
  simp [signedClaimsToken, signedObjToken, signBits, encodeNat]

theorem validate_wrong_sig (h : JWTHelper) (pk : RsaPublicKey) (t : Nat)
    (p sig : List Bool) (hpub : h.pub_key = some pk)
    (hsig : sig ≠ signBits pk.keyId (signedInput Alg.RS256 p)) :
    validate_token h t ⟨Alg.RS256, p, sig⟩ = Outcome.error JwtError.SignatureError := by
  unfold validate_token
  rw [hpub]
  simp [hsig]

/-! ### The claims -/

/-- **C1** Round trip: for every subject `s` (including `""`), every valid RSA
key pair (the public key and the encrypted PEM belong to the same pair and the
passphrase decrypts the PEM), and every `expiry_secs > 0`, validating the
token produced by `generate_token s` within `expiry_secs` of the issuance
clock reading returns `s`. -/
theorem C1_round_trip (secret : String) (pem : EncryptedPem) (pk : RsaPublicKey)
    (E L : Nat) (clock : Nat → Nat) (s : String) (t : Nat) (tok : Token)
    (hkey : pk.keyId = pem.keyId) (hsec : secret = pem.passphrase) (hE : 0 < E)
    (hgen : generate_token ⟨some secret, E, L, some pem, some pk⟩ clock s
      = Outcome.ok tok)
    (ht : t ≤ clock 0 + E) :
    validate_token ⟨some secret, E, L, some pem, some pk⟩ t tok = Outcome.ok s := by
  rw [generate_token_ok secret pem (some pk) E L clock s hsec] at hgen
  injection hgen with htok
  subst htok
  rw [← hkey, validate_signedClaimsToken ⟨some secret, E, L, some pem, some pk⟩ pk
    ⟨clock 0 + E, clock 1, s⟩ t rfl]
  have hle : t ≤ clock 0 + E + L := Nat.le_trans ht (Nat.le_add_right _ _)
  simp [hle]

/-- Witness for C1: key pair 0, passphrase `"pw"`, `expiry_secs = 2`, subject
`""`, clock stuck at 5, validation at time 7. -/
theorem C1_round_trip_witness :
    validate_token ⟨some "pw", 2, 0, some ⟨0, "pw"⟩, some ⟨0⟩⟩ 7
        (signedClaimsToken 0 ⟨7, 5, ""⟩) = Outcome.ok "" :=
  C1_round_trip "pw" ⟨0, "pw"⟩ ⟨0⟩ 2 0 (fun _ => 5) "" 7
    (signedClaimsToken 0 ⟨7, 5, ""⟩) rfl rfl (by decide)
    (generate_token_ok "pw" ⟨0, "pw"⟩ (some ⟨0⟩) 2 0 (fun _ => 5) "" rfl) (by decide)

/-- **C2** Expiry enforcement: a genuinely signed token carrying expiry claim
`e` validates at wall-clock time `t` (returning the subject) iff
`t ≤ e + leeway`, and otherwise fails with `ExpiredError`. -/
theorem C2_expiry_enforcement (h : JWTHelper) (pk : RsaPublicKey)
    (e i : Nat) (s : String) (t : Nat) (hpub : h.pub_key = some pk) :
    (validate_token h t (signedClaimsToken pk.keyId ⟨e, i, s⟩) = Outcome.ok s
        ↔ t ≤ e + h.leeway)
    ∧ (e + h.leeway < t →
        validate_token h t (signedClaimsToken pk.keyId ⟨e, i, s⟩)
          = Outcome.error JwtError.ExpiredError) := by
  rw [validate_signedClaimsToken h pk ⟨e, i, s⟩ t hpub]
  constructor
  · by_cases hle : t ≤ e + h.leeway
    · simp [hle]
    · simp [hle]
  · intro hlt
    rw [if_neg (Nat.not_le.mpr hlt)]

/-- Witness for C2: token with `exp = 5` under leeway 3, checked at time 9
(expired: `9 > 5 + 3`). -/
theorem C2_expiry_enforcement_witness :
    (validate_token ⟨none, 0, 3, none, some ⟨1⟩⟩ 9 (signedClaimsToken 1 ⟨5, 5, "u"⟩)
        = Outcome.ok "u" ↔ 9 ≤ 5 + 3)
    ∧ (5 + 3 < 9 →
        validate_token ⟨none, 0, 3, none, some ⟨1⟩⟩ 9 (signedClaimsToken 1 ⟨5, 5, "u"⟩)
          = Outcome.error JwtError.ExpiredError) :=
  C2_expiry_enforcement ⟨none, 0, 3, none, some ⟨1⟩⟩ ⟨1⟩ 5 5 "u" 9 rfl

/-- **C3** counterexample: a Helper missing the encrypted private key makes
`generate_token` panic (the Rust `.expect`) with the `PVT_KEY_ABSENT` message
rather than return a `ConfigError` result, and a Helper missing the public
key makes `validate_token` panic with `PUB_KEY_ABSENT`; this falsifies both
the `ConfigError` result and the no-panic parts of the claim. -/
theorem C3_config_guard_counterexample :
    generate_token ⟨some "pw", 2, 0, none, some ⟨0⟩⟩ (fun _ => 5) "x"
        = Outcome.panic PVT_KEY_ABSENT
    ∧ generate_token ⟨some "pw", 2, 0, none, some ⟨0⟩⟩ (fun _ => 5) "x"
        ≠ Outcome.error JwtError.ConfigError
    ∧ validate_token ⟨some "pw", 2, 0, none, none⟩ 0 ⟨Alg.RS256, [], []⟩
        = Outcome.panic PUB_KEY_ABSENT :=
  ⟨rfl, by decide, rfl⟩

/-- **C3** (amended): calling `generate_token` on a Helper missing the
encrypted private key PEM (or, with a PEM present, missing the passphrase)
panics with the corresponding descriptive message rather than returning a
`ConfigError` result, and calling `validate_token` on a Helper missing the
public key panics with `PUB_KEY_ABSENT`; `expiry_secs` is a non-optional
field, so an expiry can never be missing. -/
theorem C3_config_guard_panics (secret : String) (pem : EncryptedPem)
    (pk : Option RsaPublicKey) (E L t : Nat) (clock : Nat → Nat) (s : String)
    (tok : Token) :
    generate_token ⟨some secret, E, L, none, pk⟩ clock s
        = Outcome.panic PVT_KEY_ABSENT
    ∧ generate_token ⟨none, E, L, some pem, pk⟩ clock s
        = Outcome.panic SECRET_ABSENT
    ∧ validate_token ⟨some secret, E, L, some pem, none⟩ t tok
        = Outcome.panic PUB_KEY_ABSENT :=
  ⟨rfl, rfl, rfl⟩

/-- **C4** counterexample: with `expiry_secs = 5` and a clock that ticks from
10 to 11 between the two separate `Utc::now()` calls of `generate_token`, the
issued claims are `exp = 15`, `iat = 11`, and `exp ≠ iat + expiry_secs`. -/
theorem C4_single_clock_sample_counterexample :
    (generate_token ⟨some "pw", 5, 0, some ⟨0, "pw"⟩, some ⟨0⟩⟩
        (fun k => 10 + k) "u").getOk.bind tokenClaims = some ⟨15, 11, "u"⟩
    ∧ (15 : Nat) ≠ 11 + 5 := by
  constructor
  · rw [generate_token_ok "pw" ⟨0, "pw"⟩ (some ⟨0⟩) 5 0 (fun k => 10 + k) "u" rfl]
    simp [Outcome.getOk, tokenClaims_signedClaimsToken]
  · decide

/-- **C4** (amended): `exp` and `iat` are captured from two separate `now()`
readings — `exp` from the first and `iat` from the second; whenever the two
readings coincide, the issued claims satisfy `exp = iat + expiry_secs`
exactly. -/
theorem C4_two_clock_samples (secret : String) (pem : EncryptedPem)
    (pk : Option RsaPublicKey) (E L : Nat) (clock : Nat → Nat) (s : String)
    (hsec : secret = pem.passphrase) (hclk : clock 1 = clock 0) :
    (generate_token ⟨some secret, E, L, some pem, pk⟩ clock s).getOk.bind tokenClaims
      = some ⟨clock 1 + E, clock 1, s⟩ := by
  rw [generate_token_ok secret pem pk E L clock s hsec, hclk]
  simp [Outcome.getOk, tokenClaims_signedClaimsToken]

/-- Witness for the amended C4: constant clock at 10, `expiry_secs = 5`;
the claims come out as `exp = 15 = iat + 5`. -/
theorem C4_two_clock_samples_witness :
    (generate_token ⟨some "pw", 5, 0, some ⟨0, "pw"⟩, some ⟨0⟩⟩
        (fun _ => 10) "u").getOk.bind tokenClaims = some ⟨15, 10, "u"⟩ :=
  C4_two_clock_samples "pw" ⟨0, "pw"⟩ (some ⟨0⟩) 5 0 (fun _ => 10) "u" rfl rfl

/-- **C5** Algorithm confusion guard: any token whose header `alg` is not
`RS256` is rejected with `AlgorithmMismatchError`, whatever its payload and
signature segments contain. -/
theorem C5_algorithm_mismatch (h : JWTHelper) (pk : RsaPublicKey) (t : Nat)
    (tok : Token) (hpub : h.pub_key = some pk) (halg : tok.alg ≠ Alg.RS256) :
    validate_token h t tok = Outcome.error JwtError.AlgorithmMismatchError := by
  unfold validate_token
  rw [hpub]
  simp [halg]

/-- Witness for C5: an alg-`none` token with a well-formed claims payload and
an empty signature (spec scenario S4). -/
theorem C5_algorithm_mismatch_witness :
    validate_token ⟨none, 0, 0, none, some ⟨1⟩⟩ 0
        ⟨Alg.noAlg, encodeObj (Claims.toJson ⟨7, 5, "u"⟩), []⟩
      = Outcome.error JwtError.AlgorithmMismatchError :=
  C5_algorithm_mismatch ⟨none, 0, 0, none, some ⟨1⟩⟩ ⟨1⟩ 0
    ⟨Alg.noAlg, encodeObj (Claims.toJson ⟨7, 5, "u"⟩), []⟩ rfl (by decide)

/-- **C6** Required-claims check: a genuinely signed token whose payload has
no `exp` member or no `sub` member is rejected with `MalformedTokenError`,
while appending additional unknown members to a complete claims payload does
not change the validation outcome (so such tokens are never rejected for
carrying extra claims). -/
theorem C6_required_claims (h : JWTHelper) (pk : RsaPublicKey) (t : Nat)
    (o : JsonObj) (c : Claims) (extras : JsonObj)
    (hpub : h.pub_key = some pk)
    (hext : ∀ e ∈ extras, ¬ e.1 = "exp" ∧ ¬ e.1 = "iat" ∧ ¬ e.1 = "sub") :
    ((hasClaim o "exp" = false ∨ hasClaim o "sub" = false) →
        validate_token h t (signedObjToken pk.keyId o)
          = Outcome.error JwtError.MalformedTokenError)
    ∧ validate_token h t (signedObjToken pk.keyId (c.toJson ++ extras))
        = validate_token h t (signedObjToken pk.keyId c.toJson) := by
  constructor
  · intro hmiss
    rw [validate_signedObjToken h pk o t hpub]
    have hnone : Claims.fromJson o = none := by
      cases hmiss with
      | inl hm => exact fromJson_missing_exp o hm
      | inr hm => exact fromJson_missing_sub o hm
    rw [hnone]
  · rw [validate_signedObjToken h pk (c.toJson ++ extras) t hpub,
      validate_signedObjToken h pk c.toJson t hpub,
      fromJson_append_extras c.toJson extras hext]

/-- Witness for C6: a payload with only `iat` is rejected as malformed, and a
complete payload with an extra `role` member validates identically to the
payload without it. -/
theorem C6_required_claims_witness :
    validate_token ⟨none, 0, 0, none, some ⟨2⟩⟩ 0
        (signedObjToken 2 [("iat", JsonVal.num (Int.ofNat 5))])
      = Outcome.error JwtError.MalformedTokenError
    ∧ validate_token ⟨none, 0, 0, none, some ⟨2⟩⟩ 0
        (signedObjToken 2 (Claims.toJson ⟨7, 5, "u"⟩ ++ [("role", JsonVal.str "admin")]))
      = validate_token ⟨none, 0, 0, none, some ⟨2⟩⟩ 0
          (signedObjToken 2 (Claims.toJson ⟨7, 5, "u"⟩)) :=
  ⟨(C6_required_claims ⟨none, 0, 0, none, some ⟨2⟩⟩ ⟨2⟩ 0
      [("iat", JsonVal.num (Int.ofNat 5))] ⟨7, 5, "u"⟩
      [("role", JsonVal.str "admin")] rfl (by decide)).1 (Or.inl (by decide)),
   (C6_required_claims ⟨none, 0, 0, none, some ⟨2⟩⟩ ⟨2⟩ 0
      [("iat", JsonVal.num (Int.ofNat 5))] ⟨7, 5, "u"⟩
      [("role", JsonVal.str "admin")] rfl (by decide)).2⟩

/-- **C7** Leeway monotonicity: if `validate_token` accepts a token at time
`t` with `leeway = L1`, it accepts it (with the same subject) for any
`leeway = L2 ≥ L1`. -/
theorem C7_leeway_monotone (ps : Option String) (E L1 L2 t : Nat)
    (ek : Option EncryptedPem) (pb : Option RsaPublicKey) (tok : Token) (s : String)
    (hL : L1 ≤ L2)
    (hok : validate_token ⟨ps, E, L1, ek, pb⟩ t tok = Outcome.ok s) :
    validate_token ⟨ps, E, L2, ek, pb⟩ t tok = Outcome.ok s := by
  unfold validate_token at hok ⊢
  cases pb with
  | none => simp at hok
  | some pk =>
    dsimp only at hok ⊢
    by_cases halg : tok.alg ≠ Alg.RS256
    · rw [if_pos halg] at hok
      simp at hok
    · rw [if_neg halg] at hok ⊢
      by_cases hsig : tok.sigBits ≠ signBits pk.keyId (signedInput tok.alg tok.payloadBits)
      · rw [if_pos hsig] at hok
        simp at hok
      · rw [if_neg hsig] at hok ⊢
        cases hobj : decodeObjFull tok.payloadBits with
        | none =>
          rw [hobj] at hok
          simp at hok
        | some o =>
          rw [hobj] at hok
          dsimp only at hok ⊢
          cases hcl : Claims.fromJson o with
          | none =>
            rw [hcl] at hok
            simp at hok
          | some c =>
            rw [hcl] at hok
            dsimp only at hok ⊢
            by_cases hexp : t ≤ c.exp + L1
            · rw [if_pos hexp] at hok
              rw [if_pos (Nat.le_trans hexp (Nat.add_le_add_left hL _))]
              exact hok
            · rw [if_neg hexp] at hok
              simp at hok

/-- Witness for C7: a token with `exp = 5` accepted at time 8 under leeway 3
is still accepted under leeway 5. -/
theorem C7_leeway_monotone_witness :
    validate_token ⟨none, 0, 5, none, some ⟨1⟩⟩ 8 (signedClaimsToken 1 ⟨5, 5, "u"⟩)
      = Outcome.ok "u" :=
  C7_leeway_monotone none 0 3 5 8 none (some ⟨1⟩) (signedClaimsToken 1 ⟨5, 5, "u"⟩) "u"
    (by decide)
    (by rw [validate_signedClaimsToken ⟨none, 0, 3, none, some ⟨1⟩⟩ ⟨1⟩ ⟨5, 5, "u"⟩ 8 rfl]
        decide)

/-- **C8** Tamper resistance: for a token produced by `generate_token` under
a valid key pair, flipping any single bit of the payload segment or of the
signature segment makes `validate_token` fail with `SignatureError` or
`MalformedTokenError` (in this model, always `SignatureError`: the signature
is checked over the raw segments before the payload is parsed). -/
theorem C8_tamper_resistance (secret : String) (pem : EncryptedPem) (pk : RsaPublicKey)
    (E L t : Nat) (clock : Nat → Nat) (s : String) (tok : Token) (i : Nat)
    (hkey : pk.keyId = pem.keyId) (hsec : secret = pem.passphrase)
    (hgen : generate_token ⟨some secret, E, L, some pem, some pk⟩ clock s
      = Outcome.ok tok) :
    (i < tok.payloadBits.length →
        validate_token ⟨some secret, E, L, some pem, some pk⟩ t
            ⟨tok.alg, flipBit tok.payloadBits i, tok.sigBits⟩
          = Outcome.error JwtError.SignatureError
        ∨ validate_token ⟨some secret, E, L, some pem, some pk⟩ t
            ⟨tok.alg, flipBit tok.payloadBits i, tok.sigBits⟩
          = Outcome.error JwtError.MalformedTokenError)
    ∧ (i < tok.sigBits.length →
        validate_token ⟨some secret, E, L, some pem, some pk⟩ t
            ⟨tok.alg, tok.payloadBits, flipBit tok.sigBits i⟩
          = Outcome.error JwtError.SignatureError
        ∨ validate_token ⟨some secret, E, L, some pem, some pk⟩ t
            ⟨tok.alg, tok.payloadBits, flipBit tok.sigBits i⟩
          = Outcome.error JwtError.MalformedTokenError) := by
  rw [generate_token_ok secret pem (some pk) E L clock s hsec] at hgen
  injection hgen with htok
  subst htok
  constructor
  · intro hi
    left
    refine validate_wrong_sig _ pk t _ _ rfl ?_
    rw [hkey]
    intro he
    have h2 := (signBits_inj he).2
    simp only [signedInput] at h2
    have h3 := List.append_cancel_left h2
    exact flipBit_ne _ i (by simpa [signedClaimsToken, signedObjToken] using hi) h3.symm
  · intro hi
    left
    refine validate_wrong_sig _ pk t _ _ rfl ?_
    show flipBit (signedClaimsToken pem.keyId ⟨clock 0 + E, clock 1, s⟩).sigBits i ≠ _
    rw [hkey]
    exact flipBit_ne _ i (by simpa [signedClaimsToken, signedObjToken] using hi)

/-- Witness for C8: flip bit 0 of the payload segment, and bit 0 of the
signature segment, of a concrete issued token; both validations fail. -/
theorem C8_tamper_resistance_witness :
    (validate_token ⟨some "pw", 2, 0, some ⟨0, "pw"⟩, some ⟨0⟩⟩ 0
        ⟨(signedClaimsToken 0 ⟨7, 5, ""⟩).alg,
         flipBit (signedClaimsToken 0 ⟨7, 5, ""⟩).payloadBits 0,
         (signedClaimsToken 0 ⟨7, 5, ""⟩).sigBits⟩
      = Outcome.error JwtError.SignatureError
     ∨ validate_token ⟨some "pw", 2, 0, some ⟨0, "pw"⟩, some ⟨0⟩⟩ 0
        ⟨(signedClaimsToken 0 ⟨7, 5, ""⟩).alg,
         flipBit (signedClaimsToken 0 ⟨7, 5, ""⟩).payloadBits 0,
         (signedClaimsToken 0 ⟨7, 5, ""⟩).sigBits⟩
      = Outcome.error JwtError.MalformedTokenError)
    ∧ (validate_token ⟨some "pw", 2, 0, some ⟨0, "pw"⟩, some ⟨0⟩⟩ 0
        ⟨(signedClaimsToken 0 ⟨7, 5, ""⟩).alg,
         (signedClaimsToken 0 ⟨7, 5, ""⟩).payloadBits,
         flipBit (signedClaimsToken 0 ⟨7, 5, ""⟩).sigBits 0⟩
      = Outcome.error JwtError.SignatureError
     ∨ validate_token ⟨some "pw", 2, 0, some ⟨0, "pw"⟩, some ⟨0⟩⟩ 0
        ⟨(signedClaimsToken 0 ⟨7, 5, ""⟩).alg,
         (signedClaimsToken 0 ⟨7, 5, ""⟩).payloadBits,
         flipBit (signedClaimsToken 0 ⟨7, 5, ""⟩).sigBits 0⟩
      = Outcome.error JwtError.MalformedTokenError) :=
  ⟨(C8_tamper_resistance "pw" ⟨0, "pw"⟩ ⟨0⟩ 2 0 0 (fun _ => 5) ""
      (signedClaimsToken 0 ⟨7, 5, ""⟩) 0 rfl rfl
      (generate_token_ok "pw" ⟨0, "pw"⟩ (some ⟨0⟩) 2 0 (fun _ => 5) "" rfl)).1
    (payload_length_pos 0 ⟨7, 5, ""⟩),
   (C8_tamper_resistance "pw" ⟨0, "pw"⟩ ⟨0⟩ 2 0 0 (fun _ => 5) ""
      (signedClaimsToken 0 ⟨7, 5, ""⟩) 0 rfl rfl
      (generate_token_ok "pw" ⟨0, "pw"⟩ (some ⟨0⟩) 2 0 (fun _ => 5) "" rfl)).2
    (sig_length_pos 0 ⟨7, 5, ""⟩)⟩

/-- **C9** Wrong passphrase: if the supplied passphrase does not decrypt the
encrypted PEM, `generate_token` fails with `KeyMaterialError` and no token is
produced. -/
theorem C9_wrong_passphrase (secret : String) (pem : EncryptedPem)
    (pk : Option RsaPublicKey) (E L : Nat) (clock : Nat → Nat) (s : String)
    (hne : ¬ secret = pem.passphrase) :
    generate_token ⟨some secret, E, L, some pem, pk⟩ clock s
      = Outcome.error JwtError.KeyMaterialError := by
  unfold generate_token
  simp [hne]

/-- Witness for C9: passphrase `"wrong"` against a PEM encrypted with
`"pw"`. -/
theorem C9_wrong_passphrase_witness :
    generate_token ⟨some "wrong", 2, 0, some ⟨0, "pw"⟩, some ⟨0⟩⟩ (fun _ => 5) "u"
      = Outcome.error JwtError.KeyMaterialError :=
  C9_wrong_passphrase "wrong" ⟨0, "pw"⟩ (some ⟨0⟩) 2 0 (fun _ => 5) "u" (by decide)

/-- **C10** (implicit): a genuinely signed token whose payload carries `exp`
and `sub` but no `iat` member is rejected with `MalformedTokenError`, because
the `Claims` deserializer requires all three fields. -/
theorem C10_missing_iat (h : JWTHelper) (pk : RsaPublicKey) (t : Nat) (o : JsonObj)
    (hpub : h.pub_key = some pk)
    (hexp : hasClaim o "exp" = true) (hsub : hasClaim o "sub" = true)
    (hiat : hasClaim o "iat" = false) :
    validate_token h t (signedObjToken pk.keyId o)
      = Outcome.error JwtError.MalformedTokenError := by
  rw [validate_signedObjToken h pk o t hpub, fromJson_missing_iat o hiat]

/-- Witness for C10: payload `{exp: 7, sub: "u"}` with a valid signature is
rejected as malformed. -/
theorem C10_missing_iat_witness :
    validate_token ⟨none, 0, 0, none, some ⟨3⟩⟩ 0
        (signedObjToken 3 [("exp", JsonVal.num (Int.ofNat 7)), ("sub", JsonVal.str "u")])
      = Outcome.error JwtError.MalformedTokenError :=
  C10_missing_iat ⟨none, 0, 0, none, some ⟨3⟩⟩ ⟨3⟩ 0
    [("exp", JsonVal.num (Int.ofNat 7)), ("sub", JsonVal.str "u")] rfl
    (by decide) (by decide) (by decide)
